import Mathlib

/-!
Verification of the instruction-following evaluation sample generator and the
dataset-loader / model-push orchestration of the `finetuning` repository.

The rule-composition engine (`finetune/eval/if_eval/rule_factory.py` together
with `rule.py`, `keywords.py`, `version.py`) is not shipped in `src/`; only its
test suite (`tests/finetune/eval/if_eval/test_rule_factory.py`) is.  Those
components are therefore modelled from the specification, constrained by the
behaviour the visible tests rely on.  `finetune/datasets/factory.py` and
`finetune/mining.py` are shipped and are embedded directly.
-/

/-- Modelled from the spec: `RuleId` (in the missing `finetune/eval/if_eval/rule.py`)
is an opaque enumerated tag identifying a rule kind: the three keyword-based
kinds named by the spec, plus structural/formatting kinds (the spec mentions
output-length constraints in conflicting directions and contradictory
formatting rules as the incompatible examples). -/
inductive RuleId
  | KEYWORD_INCLUSION
  | KEYWORD_FREQUENCY
  | KEYWORD_FORBIDDEN
  | WORD_COUNT_AT_MOST
  | WORD_COUNT_AT_LEAST
  | ALL_UPPER_CASE
  | ALL_LOWER_CASE
deriving DecidableEq, Repr

/-- Modelled from the spec: `IfEvalVersion` (missing `finetune/eval/if_eval/version.py`)
is the enumerated version tag; `NONE` denotes "no version gate". -/
inductive IfEvalVersion
  | NONE
  | V1
  | V2
deriving DecidableEq, Repr

/-- Modelled from the spec: a `Rule` instance (missing `finetune/eval/if_eval/rule.py`
and `keywords.py`) is a rule kind with concrete parameters.  The constructor
names mirror the Python classes imported by the shipped test file
(`KeywordInclusionRule`, `KeywordFrequencyRule`, `KeywordForbiddenRule`,
`DummyRule`); the structural kinds carry their numeric parameter. -/
inductive Rule
  | KeywordInclusionRule (keywords : List String)
  | KeywordFrequencyRule (keywords : List (String × Nat))
  | KeywordForbiddenRule (keywords : List String)
  | WordCountAtMostRule (count : Nat)
  | WordCountAtLeastRule (count : Nat)
  | AllUpperCaseRule
  | AllLowerCaseRule
  | DummyRule (id : RuleId)
deriving DecidableEq, Repr

/-- Modelled from the spec: `rule.rule_id` reports the `RuleId` the instance was
generated for; a `DummyRule` carries the `RuleId` of the slot it stands in for. -/
def Rule.rule_id : Rule → RuleId
  | .KeywordInclusionRule _ => .KEYWORD_INCLUSION
  | .KeywordFrequencyRule _ => .KEYWORD_FREQUENCY
  | .KeywordForbiddenRule _ => .KEYWORD_FORBIDDEN
  | .WordCountAtMostRule _ => .WORD_COUNT_AT_MOST
  | .WordCountAtLeastRule _ => .WORD_COUNT_AT_LEAST
  | .AllUpperCaseRule => .ALL_UPPER_CASE
  | .AllLowerCaseRule => .ALL_LOWER_CASE
  | .DummyRule id => id

/-- Modelled from the spec: `get_keywords()` returns the ordered list of
keyword strings a keyword-based instance is anchored to; non-keyword kinds
(and the `DummyRule` sentinel) return an empty list. -/
def Rule.get_keywords : Rule → List String
  | .KeywordInclusionRule kws => kws
  | .KeywordFrequencyRule kws => kws.map Prod.fst
  | .KeywordForbiddenRule kws => kws
  | _ => []

/-- Modelled from the spec: whether this instance is the `DummyRule` sentinel
("no rule could be generated for this slot"). -/
def Rule.isDummy : Rule → Bool
  | .DummyRule _ => true
  | _ => false

/-- Modelled from the spec: split a character stream on spaces, accumulating
the current (reversed) token. -/
def splitSpacesAux : List Char → List Char → List String
  | [], acc => [String.mk acc.reverse]
  | c :: cs, acc =>
    if c = ' ' then String.mk acc.reverse :: splitSpacesAux cs []
    else splitSpacesAux cs (c :: acc)

/-- Modelled from the spec: split an answer text on spaces into tokens. -/
def splitSpaces (s : String) : List String :=
  splitSpacesAux s.toList []

/-- Modelled from the spec: tokenize an answer into its word set — split on
spaces, drop empty tokens, keep the first occurrence of each word. -/
def wordSet (answer : String) : List String :=
  ((splitSpaces answer).filter (fun w => w ≠ "")).dedup

/-- Modelled from the spec: candidate keywords for a new keyword-based rule are
the symmetric difference of the two answers' word sets (own-answer words first,
then foil-answer words, preserving answer order) minus the union of
`get_keywords()` over every existing rule. -/
def candidateKeywords (qa_self qa_foil : String × String) (existing_rules : List Rule) : List String :=
  let own := wordSet qa_self.2
  let foil := wordSet qa_foil.2
  let used := (existing_rules.map Rule.get_keywords).flatten
  ((own.filter (fun w => !(foil.contains w))) ++ (foil.filter (fun w => !(own.contains w)))).filter
    (fun w => !(used.contains w))

/-- Modelled from the spec: `generate_rule` (missing
`finetune/eval/if_eval/rule_factory.py`) produces one fully parameterized rule
instance of the requested kind.  Keyword-based kinds draw their keywords from
`candidateKeywords`, falling back to the `DummyRule` sentinel when the pool is
empty; a frequency rule pairs each keyword with an exact target count;
structural kinds are built from kind-specific parameters.  The version affects
only kind-specific generation policy, not reflected for these kinds. -/
def generate_rule (rule_id : RuleId) (existing_rules : List Rule)
    (qa_self qa_foil : String × String) (_version : IfEvalVersion) : Rule :=
  match rule_id with
  | .KEYWORD_INCLUSION =>
    if (candidateKeywords qa_self qa_foil existing_rules).isEmpty then .DummyRule rule_id
    else .KeywordInclusionRule (candidateKeywords qa_self qa_foil existing_rules)
  | .KEYWORD_FREQUENCY =>
    if (candidateKeywords qa_self qa_foil existing_rules).isEmpty then .DummyRule rule_id
    else .KeywordFrequencyRule ((candidateKeywords qa_self qa_foil existing_rules).map (fun w => (w, 1)))
  | .KEYWORD_FORBIDDEN =>
    if (candidateKeywords qa_self qa_foil existing_rules).isEmpty then .DummyRule rule_id
    else .KeywordForbiddenRule (candidateKeywords qa_self qa_foil existing_rules)
  | .WORD_COUNT_AT_MOST => .WordCountAtMostRule 50
  | .WORD_COUNT_AT_LEAST => .WordCountAtLeastRule 5
  | .ALL_UPPER_CASE => .AllUpperCaseRule
  | .ALL_LOWER_CASE => .AllLowerCaseRule

/-- Modelled from the spec: the kind-level incompatibility relation underlying
the compatibility oracle.  Output-length kinds constraining in conflicting
directions conflict, as do the two contradictory formatting kinds; a
structural kind cannot be meaningfully duplicated (self-incompatible) while
keyword kinds are mutually and self compatible at the kind level (keyword
value collisions are the factory's job, not the oracle's). -/
def incompatiblePair : RuleId → RuleId → Bool
  | .WORD_COUNT_AT_MOST, .WORD_COUNT_AT_MOST => true
  | .WORD_COUNT_AT_MOST, .WORD_COUNT_AT_LEAST => true
  | .WORD_COUNT_AT_LEAST, .WORD_COUNT_AT_MOST => true
  | .WORD_COUNT_AT_LEAST, .WORD_COUNT_AT_LEAST => true
  | .ALL_UPPER_CASE, .ALL_UPPER_CASE => true
  | .ALL_UPPER_CASE, .ALL_LOWER_CASE => true
  | .ALL_LOWER_CASE, .ALL_UPPER_CASE => true
  | .ALL_LOWER_CASE, .ALL_LOWER_CASE => true
  | _, _ => false

/-- Modelled from the spec: `is_rule_incompatible(candidate_id, existing_rules)`
decides whether introducing the candidate kind would conflict with any
already-selected rule instance; it consults only the kind of each existing
instance. -/
def is_rule_incompatible (candidate_id : RuleId) (existing_rules : List Rule) : Bool :=
  existing_rules.any (fun r => incompatiblePair candidate_id r.rule_id)

/-- Modelled from the spec: `V1_RULES`, the baseline rule-kind catalog. -/
def V1_RULES : List RuleId :=
  [.KEYWORD_INCLUSION, .KEYWORD_FREQUENCY, .KEYWORD_FORBIDDEN, .WORD_COUNT_AT_MOST,
    .ALL_UPPER_CASE]

/-- Modelled from the spec: `V2_RULES`, the extended-only rule-kind catalog —
the kinds new in V2.  The shipped test asserts V1 samples are disjoint from
`V2_RULES` and takes `V1_RULES | V2_RULES` as the joint V2 universe, so this
set is disjoint from `V1_RULES`. -/
def V2_RULES : List RuleId :=
  [.WORD_COUNT_AT_LEAST, .ALL_LOWER_CASE]

/-- Modelled from the spec: the catalog lookup mapping a version to the set of
rule kinds eligible for sampling: `NONE` maps to the union of all known kinds,
`V1` to the baseline catalog, `V2` to the extended catalog (baseline plus the
extended-only kinds). -/
def rules_for_version : IfEvalVersion → List RuleId
  | .NONE => V1_RULES ++ V2_RULES
  | .V1 => V1_RULES
  | .V2 => V1_RULES ++ V2_RULES

/-- Modelled from the spec: the generation result, an ordered sequence of rule
instances (insertion order = selection order). -/
structure IfEvalSample where
  rules : List Rule
deriving DecidableEq, Repr

/-- Modelled from the spec: one step of the injected seeded random source,
a linear congruential generator over 31-bit state. -/
def lcgNext (s : Nat) : Nat :=
  (s * 1103515245 + 12345) % 2 ^ 31

/-- Modelled from the spec: the rule kinds still eligible for the next slot —
catalog members that are not already chosen and not incompatible with the
committed instances. -/
def eligibleIds (catalog chosen : List RuleId) (committed : List Rule) : List RuleId :=
  catalog.filter (fun id => !(chosen.contains id) && !(is_rule_incompatible id committed))

/-- Modelled from the spec: pick a rule kind from the eligible pool with the
seeded source, by index modulo the pool size. -/
def pickId (elig : List RuleId) (rng2 : Nat) : RuleId :=
  elig.getD (rng2 % elig.length) RuleId.KEYWORD_INCLUSION

/-- Modelled from the spec: the sampling loop of `generate_if_eval_sample`.
While fewer than `n` rules are committed and some eligible kind remains, pick
an eligible kind with the seeded source, invoke the factory, and either commit
the instance or — when the factory fell back to a `DummyRule` — discard it and
retry with a different kind.  Each kind is attempted at most once (it joins
`chosen` in either case), bounding retries by the catalog size (the fuel). -/
def sampleLoop (qa_self qa_foil : String × String) (version : IfEvalVersion)
    (catalog : List RuleId) (n : Nat) :
    Nat → List RuleId → List Rule → Nat → List Rule
  | 0, _, committed, _ => committed
  | fuel + 1, chosen, committed, rng =>
    if n ≤ committed.length then committed
    else if (eligibleIds catalog chosen committed).isEmpty then committed
    else if (generate_rule (pickId (eligibleIds catalog chosen committed) (lcgNext rng))
        committed qa_self qa_foil version).isDummy then
      sampleLoop qa_self qa_foil version catalog n fuel
        (pickId (eligibleIds catalog chosen committed) (lcgNext rng) :: chosen) committed
        (lcgNext rng)
    else
      sampleLoop qa_self qa_foil version catalog n fuel
        (pickId (eligibleIds catalog chosen committed) (lcgNext rng) :: chosen)
        (committed ++ [generate_rule (pickId (eligibleIds catalog chosen committed) (lcgNext rng))
          committed qa_self qa_foil version])
        (lcgNext rng)

/-- Modelled from the spec: `generate_if_eval_sample` (missing
`finetune/eval/if_eval/rule_factory.py`).  Resolve the version's catalog,
choose a target rule count uniformly in the configured bounds with the seeded
source, and run the sampling loop; the spec's injected seeded random source is
the explicit `seed` argument. -/
def generate_if_eval_sample (qa_self qa_foil : String × String)
    (min_rules max_rules : Nat) (version : IfEvalVersion) (seed : Nat) : IfEvalSample :=
  let catalog := rules_for_version version
  let rng := lcgNext seed
  let n := min_rules + rng % (max_rules - min_rules + 1)
  ⟨sampleLoop qa_self qa_foil version catalog n catalog.length [] [] rng⟩

/-!
## Dataset-loader dispatch (`finetune/datasets/factory.py`)

`factory.py` is shipped in `src/` and is embedded directly.  The `DatasetId`
enumeration lives in `finetune/datasets/ids.py`, which is not shipped; it is
modelled with exactly the members `factory.py` references.  Loader classes are
external collaborators and are modelled by the constructor arguments
`factory.py` passes to them.
-/

/-- Modelled from the spec: the `DatasetId` enumeration (missing
`finetune/datasets/ids.py`); its members are those referenced by the shipped
`factory.py`. -/
inductive DatasetId
  | DYCK_LANGUAGE
  | SYNTHETIC_MMLU
  | WORD_SORTING
  | FINEWEB
  | SYNTHETIC_IF_EVAL
  | SYNTHETIC_1_SFT
  | CODEFORCES_COTS
deriving DecidableEq, Repr

/-- Modelled from the spec: the dataset name constant passed by `factory.py`
for the FINEWEB dataset (defined in the external hugging-face loader module). -/
def FINEWEB_EDU_SCORE_2_NAME : String := "HuggingFaceFW/fineweb-edu-score-2"

/-- A dataset loader instance as constructed by `DatasetLoaderFactory.get_loader`:
one constructor per loader class, carrying exactly the arguments `factory.py`
passes (`random_seed`, the forwarded keyword arguments, plus `name` for the
Hugging Face loader and `validator_hotkeys` for the IF-eval loader). -/
inductive DatasetLoader
  | DyckLoader (random_seed : Int) (kwargs : List (String × String))
  | WordSortingLoader (random_seed : Int) (kwargs : List (String × String))
  | HuggingFaceLoader (name : String) (random_seed : Int) (kwargs : List (String × String))
  | IFEvalLoader (random_seed : Int) (validator_hotkeys : List String)
      (kwargs : List (String × String))
  | Synthetic1SFTLoader (random_seed : Int) (kwargs : List (String × String))
  | CodeforcesCOTSLoader (random_seed : Int) (kwargs : List (String × String))
deriving DecidableEq, Repr

/-- The `random_seed` constructor argument the loader was built with. -/
def DatasetLoader.random_seed : DatasetLoader → Int
  | .DyckLoader s _ => s
  | .WordSortingLoader s _ => s
  | .HuggingFaceLoader _ s _ => s
  | .IFEvalLoader s _ _ => s
  | .Synthetic1SFTLoader s _ => s
  | .CodeforcesCOTSLoader s _ => s

/-- The `validator_hotkeys` constructor argument, when the loader class takes
one (only the IF-eval loader does). -/
def DatasetLoader.hotkeys : DatasetLoader → Option (List String)
  | .IFEvalLoader _ hks _ => some hks
  | _ => none

/-- The loader class tag, for stating that dispatch is a pure lookup. -/
inductive LoaderKind
  | dyck
  | wordSorting
  | huggingFace
  | ifEval
  | synthetic1SFT
  | codeforcesCOTS
deriving DecidableEq, Repr

/-- The class of a constructed loader. -/
def DatasetLoader.kind : DatasetLoader → LoaderKind
  | .DyckLoader _ _ => .dyck
  | .WordSortingLoader _ _ => .wordSorting
  | .HuggingFaceLoader _ _ _ => .huggingFace
  | .IFEvalLoader _ _ _ => .ifEval
  | .Synthetic1SFTLoader _ _ => .synthetic1SFT
  | .CodeforcesCOTSLoader _ _ => .codeforcesCOTS

/-- The exceptions `DatasetLoaderFactory.get_loader` can raise. -/
inductive GetLoaderError
  | notImplementedError (msg : String)
  | valueError (msg : String)
deriving DecidableEq, Repr

/-- `DatasetLoaderFactory.get_loader` from `finetune/datasets/factory.py`:
dispatch on `dataset_id`, constructing the loader with `random_seed := seed`
and the forwarded keyword arguments; `SYNTHETIC_MMLU` raises
`NotImplementedError`, and an unmatched id raises `ValueError` (unreachable
for the modelled enumeration, whose members are exactly the matched ones). -/
def get_loader (dataset_id : DatasetId) (dataset_kwargs : List (String × String))
    (seed : Int) (validator_hotkeys : List String) :
    Except GetLoaderError DatasetLoader :=
  match dataset_id with
  | .DYCK_LANGUAGE => .ok (.DyckLoader seed dataset_kwargs)
  | .SYNTHETIC_MMLU =>
    .error (.notImplementedError
      "Prompting dataset is not implemented and should be loaded elsewhere.")
  | .WORD_SORTING => .ok (.WordSortingLoader seed dataset_kwargs)
  | .FINEWEB => .ok (.HuggingFaceLoader FINEWEB_EDU_SCORE_2_NAME seed dataset_kwargs)
  | .SYNTHETIC_IF_EVAL => .ok (.IFEvalLoader seed validator_hotkeys dataset_kwargs)
  | .SYNTHETIC_1_SFT => .ok (.Synthetic1SFTLoader seed dataset_kwargs)
  | .CODEFORCES_COTS => .ok (.CodeforcesCOTSLoader seed dataset_kwargs)

/-- Restatement of the spec's words for the dispatch table ("a pure lookup
table from an identifier to a loader object"): the loader class each
`DatasetId` is mapped to, `none` where no loader is produced.  Declared
separately from `get_loader` so the code's dispatch can be compared with the
spec's table. -/
def specLoaderKind : DatasetId → Option LoaderKind
  | .DYCK_LANGUAGE => some .dyck
  | .SYNTHETIC_MMLU => none
  | .WORD_SORTING => some .wordSorting
  | .FINEWEB => some .huggingFace
  | .SYNTHETIC_IF_EVAL => some .ifEval
  | .SYNTHETIC_1_SFT => some .synthetic1SFT
  | .CODEFORCES_COTS => some .codeforcesCOTS

/-!
## Model push (`finetune/mining.py`)

`mining.py` is shipped in `src/`.  Its external collaborators (the subtensor,
the chain metadata store, the Hugging Face model store, repo validation and
hashing from `taoverse`) are modelled as an environment of oracles, and
`push` is embedded as a function from that environment to the ordered trace
of external effects it performs together with its outcome.  The unbounded
chain-commit retry loop is given explicit fuel; running out of fuel models
the loop still spinning, which is outcome `error`, never a silent success.
-/

/-- Modelled from the spec: the `CompetitionId` enumeration (missing
`competitions/data.py`); `INSTRUCT_8B` is referenced by the shipped
`mining.py`, with one further member standing for the other competitions. -/
inductive CompetitionId
  | INSTRUCT_8B
  | B7B_MULTI_CHOICE
deriving DecidableEq, Repr

/-- Modelled from the spec: the model constraints record looked up in
`constants.MODEL_CONSTRAINTS_BY_COMPETITION_ID` (external `taoverse` data;
its fields are irrelevant here and abstracted to one). -/
structure ModelConstraints where
  max_model_size : Nat
deriving DecidableEq, Repr

/-- An external side effect performed by `push`, in program order. -/
inductive PushEffect
  | createSubtensor
  | createMetadataStore
  | createRemoteStore
  | uploadModel
  | storeMetadata
  | retrieveMetadata
  | updateRepoVisibility
deriving DecidableEq, Repr

/-- The environment of external collaborators `push` interacts with:
the competition-constraints table, repo-id validation, the hash produced by
the model upload, and per-attempt outcomes of the chain store/read-back. -/
structure PushEnv where
  modelConstraintsById : CompetitionId → Option ModelConstraints
  validRepoId : String → Option (String × String)
  uploadedHash : String
  storeOk : Nat → Bool
  readbackStr : Nat → Option String
deriving Inhabited

/-- `get_hash_of_two_strings` from `taoverse.model.utils`, abstracted: an
injective-enough combination of the model hash and the wallet hotkey. -/
def get_hash_of_two_strings (a b : String) : String :=
  a ++ ":" ++ b

/-- The chain-commit retry loop of `push` (`while True` around
`store_model_metadata` plus read-back verification): attempt `i` stores the
metadata, and on store success retrieves it back and compares with the
expected compressed id; any failure sleeps and retries.  Returns the trace of
chain effects and whether a commit was verified within the fuel. -/
def pushLoop (env : PushEnv) (expected : String) :
    Nat → Nat → List PushEffect × Bool
  | 0, _ => ([], false)
  | fuel + 1, i =>
    if env.storeOk i then
      match env.readbackStr i with
      | some s =>
        if s = expected then ([.storeMetadata, .retrieveMetadata], true)
        else
          ((PushEffect.storeMetadata :: PushEffect.retrieveMetadata ::
            (pushLoop env expected fuel (i + 1)).1), (pushLoop env expected fuel (i + 1)).2)
      | none =>
        ((PushEffect.storeMetadata :: PushEffect.retrieveMetadata ::
          (pushLoop env expected fuel (i + 1)).1), (pushLoop env expected fuel (i + 1)).2)
    else
      ((PushEffect.storeMetadata :: (pushLoop env expected fuel (i + 1)).1),
        (pushLoop env expected fuel (i + 1)).2)

/-- `push` from `finetune/mining.py` as a trace semantics: construct the
subtensor and the default stores, look up the competition's constraints and
raise `ValueError` when there are none, validate the repo id, upload the model
to the remote store, then commit the metadata to the chain in the retry loop,
and finally toggle repo visibility when requested.  The result is the ordered
list of external effects performed together with the outcome. -/
def push (env : PushEnv) (repo : String) (competition_id : CompetitionId)
    (hotkey : String) (update_repo_visibility : Bool) (fuel : Nat) :
    List PushEffect × Except String Unit :=
  match env.modelConstraintsById competition_id with
  | none =>
    ([.createSubtensor, .createMetadataStore, .createRemoteStore],
      .error "Invalid competition_id")
  | some _ =>
    match env.validRepoId repo with
    | none =>
      ([.createSubtensor, .createMetadataStore, .createRemoteStore],
        .error "invalid repo id")
    | some _ =>
      if (pushLoop env (get_hash_of_two_strings env.uploadedHash hotkey) fuel 0).2 then
        if update_repo_visibility then
          ([.createSubtensor, .createMetadataStore, .createRemoteStore, .uploadModel] ++
            (pushLoop env (get_hash_of_two_strings env.uploadedHash hotkey) fuel 0).1 ++
            [.updateRepoVisibility], .ok ())
        else
          ([.createSubtensor, .createMetadataStore, .createRemoteStore, .uploadModel] ++
            (pushLoop env (get_hash_of_two_strings env.uploadedHash hotkey) fuel 0).1, .ok ())
      else
        ([.createSubtensor, .createMetadataStore, .createRemoteStore, .uploadModel] ++
          (pushLoop env (get_hash_of_two_strings env.uploadedHash hotkey) fuel 0).1,
          .error "commit loop still retrying")

/-!
## Shared lemmas
-/

/-- The factory stamps the requested kind on every instance it returns,
dummy fallback included. -/
theorem rule_id_generate_rule (rule_id : RuleId) (existing_rules : List Rule)
    (qa_self qa_foil : String × String) (version : IfEvalVersion) :
    (generate_rule rule_id existing_rules qa_self qa_foil version).rule_id = rule_id := by
  cases rule_id <;> simp only [generate_rule] <;> (try rfl) <;> split <;> rfl

/-- The kind-level incompatibility relation is symmetric. -/
theorem incompatiblePair_comm (a b : RuleId) : incompatiblePair a b = incompatiblePair b a := by
  cases a <;> cases b <;> rfl

/-- Against a single existing rule the oracle is the pair relation on kinds. -/
theorem is_rule_incompatible_singleton (c : RuleId) (r : Rule) :
    is_rule_incompatible c [r] = incompatiblePair c r.rule_id := by
  simp [is_rule_incompatible]

/-- An in-bounds `getD` returns a member of the list. -/
theorem getD_mem {α : Type} (l : List α) (i : Nat) (d : α) (h : i < l.length) :
    l.getD i d ∈ l := by
  induction l generalizing i with
  | nil => simp at h
  | cons a t ih =>
    cases i with
    | zero => simp [List.getD_cons_zero]
    | succ j =>
      simp only [List.getD_cons_succ]
      exact List.mem_cons_of_mem a (ih j (by simpa using h))

/-- The picked kind belongs to the (nonempty) eligible pool. -/
theorem pickId_mem {elig : List RuleId} (h : elig.isEmpty = false) (rng2 : Nat) :
    pickId elig rng2 ∈ elig := by
  have hlen : 0 < elig.length := by
    cases elig with
    | nil => simp at h
    | cons a t => simp
  exact getD_mem _ _ _ (Nat.mod_lt _ hlen)

/-- Eligible kinds are catalog members. -/
theorem eligibleIds_subset {catalog chosen : List RuleId} {committed : List Rule} {id : RuleId}
    (h : id ∈ eligibleIds catalog chosen committed) : id ∈ catalog :=
  List.mem_of_mem_filter h

/-- Any property of the committed rules that holds initially and is preserved
by committing a non-dummy factory product for a catalog kind holds of every
rule the sampling loop returns. -/
theorem sampleLoop_invariant (qa_self qa_foil : String × String) (version : IfEvalVersion)
    (catalog : List RuleId) (n : Nat) (P : Rule → Prop)
    (hgen : ∀ id committed, id ∈ catalog →
      (generate_rule id committed qa_self qa_foil version).isDummy = false →
      P (generate_rule id committed qa_self qa_foil version)) :
    ∀ fuel chosen committed rng, (∀ r ∈ committed, P r) →
      ∀ r ∈ sampleLoop qa_self qa_foil version catalog n fuel chosen committed rng, P r := by
  intro fuel
  induction fuel with
  | zero =>
    intro chosen committed rng hc r hr
    rw [sampleLoop] at hr
    exact hc r hr
  | succ fuel ih =>
    intro chosen committed rng hc r hr
    rw [sampleLoop] at hr
    split at hr
    · exact hc r hr
    · split at hr
      · exact hc r hr
      · rename_i h1 h2
        split at hr
        · exact ih _ _ _ hc r hr
        · rename_i hd
          refine ih _ _ _ ?_ r hr
          intro x hx
          rcases List.mem_append.mp hx with hx | hx
          · exact hc x hx
          · rcases List.mem_singleton.mp hx with rfl
            refine hgen _ _ ?_ (by simpa using hd)
            exact eligibleIds_subset
              (pickId_mem (by simpa using h2) (lcgNext rng))

/-- Every rule in a generated sample has its kind in the version's catalog. -/
theorem sample_mem_catalog (qa_self qa_foil : String × String) (mn mx : Nat)
    (v : IfEvalVersion) (seed : Nat) :
    ∀ r ∈ (generate_if_eval_sample qa_self qa_foil mn mx v seed).rules,
      r.rule_id ∈ rules_for_version v := by
  intro r hr
  simp only [generate_if_eval_sample] at hr
  exact sampleLoop_invariant qa_self qa_foil v (rules_for_version v) _
    (fun r => r.rule_id ∈ rules_for_version v)
    (fun id committed hid _ => by simpa only [rule_id_generate_rule] using hid)
    _ [] [] _ (by simp) r hr

/-- No rule in a generated sample is the dummy sentinel. -/
theorem sample_no_dummy_mem (qa_self qa_foil : String × String) (mn mx : Nat)
    (v : IfEvalVersion) (seed : Nat) :
    ∀ r ∈ (generate_if_eval_sample qa_self qa_foil mn mx v seed).rules,
      r.isDummy = false := by
  intro r hr
  simp only [generate_if_eval_sample] at hr
  exact sampleLoop_invariant qa_self qa_foil v (rules_for_version v) _
    (fun r => r.isDummy = false) (fun _ _ _ h => h) _ [] [] _ (by simp) r hr

/-!
## Claim theorems
-/

/-- C1: the compatibility oracle is symmetric — for every ordered pair of
distinct rule kinds, checking one kind against an instance generated for the
other gives the same answer in either order, independent of instantiation
order or parameters. -/
theorem claim_c1 (A B : RuleId) (qa : String × String) (version : IfEvalVersion)
    (_h : A ≠ B) :
    is_rule_incompatible A [generate_rule B [] qa qa version] =
      is_rule_incompatible B [generate_rule A [] qa qa version] := by
  rw [is_rule_incompatible_singleton, is_rule_incompatible_singleton,
    rule_id_generate_rule, rule_id_generate_rule, incompatiblePair_comm]

/-- Witness for C1 at a concrete distinct pair of rule kinds. -/
theorem claim_c1_witness :
    RuleId.KEYWORD_INCLUSION ≠ RuleId.ALL_UPPER_CASE ∧
    is_rule_incompatible RuleId.KEYWORD_INCLUSION
        [generate_rule RuleId.ALL_UPPER_CASE [] ("", "") ("", "") IfEvalVersion.NONE] =
      is_rule_incompatible RuleId.ALL_UPPER_CASE
        [generate_rule RuleId.KEYWORD_INCLUSION [] ("", "") ("", "") IfEvalVersion.NONE] :=
  ⟨by decide, claim_c1 _ _ ("", "") _ (by decide)⟩

/-- C2: with own answer "cat dog", foil answer "cat bird" and an existing
keyword rule of either other kind anchored on "cat", a newly generated rule
of any keyword kind reports keywords exactly `["dog", "bird"]` — the shared
word "cat", words absent from both answers, and all keywords of existing
rules excluded, in order. -/
theorem claim_c2 :
    ((generate_rule RuleId.KEYWORD_INCLUSION [Rule.KeywordFrequencyRule [("cat", 1)]]
        ("This is a question", "cat dog") ("This is another question", "cat bird")
        IfEvalVersion.V2).get_keywords = ["dog", "bird"]) ∧
    ((generate_rule RuleId.KEYWORD_INCLUSION [Rule.KeywordForbiddenRule ["cat"]]
        ("This is a question", "cat dog") ("This is another question", "cat bird")
        IfEvalVersion.V2).get_keywords = ["dog", "bird"]) ∧
    ((generate_rule RuleId.KEYWORD_FREQUENCY [Rule.KeywordInclusionRule ["cat"]]
        ("This is a question", "cat dog") ("This is another question", "cat bird")
        IfEvalVersion.V2).get_keywords = ["dog", "bird"]) ∧
    ((generate_rule RuleId.KEYWORD_FREQUENCY [Rule.KeywordForbiddenRule ["cat"]]
        ("This is a question", "cat dog") ("This is another question", "cat bird")
        IfEvalVersion.V2).get_keywords = ["dog", "bird"]) ∧
    ((generate_rule RuleId.KEYWORD_FORBIDDEN [Rule.KeywordInclusionRule ["cat"]]
        ("This is a question", "cat dog") ("This is another question", "cat bird")
        IfEvalVersion.V2).get_keywords = ["dog", "bird"]) ∧
    ((generate_rule RuleId.KEYWORD_FORBIDDEN [Rule.KeywordFrequencyRule [("cat", 1)]]
        ("This is a question", "cat dog") ("This is another question", "cat bird")
        IfEvalVersion.V2).get_keywords = ["dog", "bird"]) := by
  refine ⟨?_, ?_, ?_, ?_, ?_, ?_⟩ <;> decide

/-- C3: samples are version-valid — every V1 sample's rule kinds are disjoint
from the extended-only catalog, and every V2 sample's rule kinds lie in the
union of the baseline and extended-only catalogs, for every input and seed. -/
theorem claim_c3 (qa_self qa_foil : String × String) (min_rules max_rules seed : Nat) :
    ((generate_if_eval_sample qa_self qa_foil min_rules max_rules IfEvalVersion.V1 seed).rules.all
        (fun r => !(decide (r.rule_id ∈ V2_RULES)))) = true ∧
    ((generate_if_eval_sample qa_self qa_foil min_rules max_rules IfEvalVersion.V2 seed).rules.all
        (fun r => decide (r.rule_id ∈ V1_RULES ++ V2_RULES))) = true := by
  constructor
  · rw [List.all_eq_true]
    intro r hr
    have h := sample_mem_catalog qa_self qa_foil min_rules max_rules IfEvalVersion.V1 seed r hr
    simp only [rules_for_version, V1_RULES, List.mem_cons, List.not_mem_nil, or_false] at h
    simp only [Bool.not_eq_true', decide_eq_false_iff_not]
    rcases h with h | h | h | h | h <;> rw [h] <;> decide
  · rw [List.all_eq_true]
    intro r hr
    have h := sample_mem_catalog qa_self qa_foil min_rules max_rules IfEvalVersion.V2 seed r hr
    simp only [rules_for_version] at h
    simpa using h

/-- C4: no sample returned by the generator ever contains a dummy-rule
instance, for every input (QA pairs, rule-count bounds, version) and seed. -/
theorem claim_c4 (qa_self qa_foil : String × String) (min_rules max_rules seed : Nat)
    (version : IfEvalVersion) :
    ((generate_if_eval_sample qa_self qa_foil min_rules max_rules version seed).rules.all
        (fun r => !(r.isDummy))) = true := by
  rw [List.all_eq_true]
  intro r hr
  simp only [Bool.not_eq_true']
  exact sample_no_dummy_mem qa_self qa_foil min_rules max_rules version seed r hr

/-- C5: the version catalogs form a superset chain — every rule kind of the
V1 (baseline) catalog is also a member of the V2 (extended) catalog. -/
theorem claim_c5 :
    ((rules_for_version IfEvalVersion.V1).all
      (fun id => decide (id ∈ rules_for_version IfEvalVersion.V2))) = true := by
  decide

/-- C6: kind fidelity — for every rule kind, the rule the factory returns has
its `rule_id` field equal to the requested kind (the field is a pure
projection of the immutable instance). -/
theorem claim_c6 (rule_id : RuleId) (existing_rules : List Rule)
    (qa_self qa_foil : String × String) (version : IfEvalVersion) :
    (generate_rule rule_id existing_rules qa_self qa_foil version).rule_id = rule_id :=
  rule_id_generate_rule rule_id existing_rules qa_self qa_foil version

/-- C7: the sample generator is deterministic — two calls with identical
QA pairs, bounds, version and an identical seed of the injected random source
produce identical samples. -/
theorem claim_c7 (qa_self qa_foil : String × String) (min_rules max_rules : Nat)
    (version : IfEvalVersion) (seed1 seed2 : Nat) (h : seed1 = seed2) :
    generate_if_eval_sample qa_self qa_foil min_rules max_rules version seed1 =
      generate_if_eval_sample qa_self qa_foil min_rules max_rules version seed2 := by
  rw [h]

/-- Witness for C7 at concrete inputs and a concrete seed. -/
theorem claim_c7_witness :
    (42 : Nat) = 42 ∧
    generate_if_eval_sample ("Q1", "cat dog") ("Q2", "cat bird") 1 2 IfEvalVersion.V2 42 =
      generate_if_eval_sample ("Q1", "cat dog") ("Q2", "cat bird") 1 2 IfEvalVersion.V2 42 :=
  ⟨rfl, claim_c7 _ _ _ _ _ _ _ rfl⟩

/-- C8 counterexample: the claim "never raising an error" fails — at
`SYNTHETIC_MMLU` the dispatch raises `NotImplementedError` instead of
returning a loader. -/
theorem claim_c8_counterexample :
    get_loader DatasetId.SYNTHETIC_MMLU [] 0 [] =
      Except.error (GetLoaderError.notImplementedError
        "Prompting dataset is not implemented and should be loaded elsewhere.") := rfl

/-- C8 (amended): dataset-loader dispatch is a pure lookup from identifier to
loader — for every `DatasetId` except `SYNTHETIC_MMLU` (which raises
`NotImplementedError`), `get_loader` returns a loader whose class is
determined by the `dataset_id` alone, per the spec's lookup table. -/
theorem claim_c8 (dataset_id : DatasetId) (dataset_kwargs : List (String × String))
    (seed : Int) (validator_hotkeys : List String)
    (h : dataset_id ≠ DatasetId.SYNTHETIC_MMLU) :
    ∃ l, get_loader dataset_id dataset_kwargs seed validator_hotkeys = Except.ok l ∧
      some l.kind = specLoaderKind dataset_id := by
  cases dataset_id
  case SYNTHETIC_MMLU => exact absurd rfl h
  all_goals exact ⟨_, rfl, rfl⟩

/-- Witness for C8 (amended) at a concrete dataset id. -/
theorem claim_c8_witness :
    DatasetId.DYCK_LANGUAGE ≠ DatasetId.SYNTHETIC_MMLU ∧
    ∃ l, get_loader DatasetId.DYCK_LANGUAGE [] 3 [] = Except.ok l ∧
      some l.kind = specLoaderKind DatasetId.DYCK_LANGUAGE :=
  ⟨by decide, claim_c8 _ [] 3 [] (by decide)⟩

/-- C9: every loader `get_loader` returns is constructed with `random_seed`
equal to the `seed` argument; the `validator_hotkeys` argument is forwarded
exactly when the dataset is `SYNTHETIC_IF_EVAL` and is ignored (the result
does not depend on it) for every other dataset. -/
theorem claim_c9 (dataset_id : DatasetId) (dataset_kwargs : List (String × String))
    (seed : Int) (validator_hotkeys other_hotkeys : List String) (l : DatasetLoader)
    (h : get_loader dataset_id dataset_kwargs seed validator_hotkeys = Except.ok l) :
    l.random_seed = seed ∧
    l.hotkeys = (if dataset_id = DatasetId.SYNTHETIC_IF_EVAL then some validator_hotkeys else none) ∧
    (dataset_id ≠ DatasetId.SYNTHETIC_IF_EVAL →
      get_loader dataset_id dataset_kwargs seed validator_hotkeys =
        get_loader dataset_id dataset_kwargs seed other_hotkeys) := by
  cases dataset_id <;> simp only [get_loader, Except.ok.injEq] at h
  case SYNTHETIC_MMLU => exact absurd h (by simp)
  all_goals subst h
  all_goals simp [DatasetLoader.random_seed, DatasetLoader.hotkeys, get_loader]

/-- Witness for C9 at the IF-eval dataset with a concrete seed and hotkeys. -/
theorem claim_c9_witness :
    get_loader DatasetId.SYNTHETIC_IF_EVAL [] 5 ["hk"] =
      Except.ok (DatasetLoader.IFEvalLoader 5 ["hk"] []) ∧
    ((DatasetLoader.IFEvalLoader 5 ["hk"] []).random_seed = 5 ∧
      (DatasetLoader.IFEvalLoader 5 ["hk"] []).hotkeys =
        (if DatasetId.SYNTHETIC_IF_EVAL = DatasetId.SYNTHETIC_IF_EVAL then some ["hk"] else none) ∧
      (DatasetId.SYNTHETIC_IF_EVAL ≠ DatasetId.SYNTHETIC_IF_EVAL →
        get_loader DatasetId.SYNTHETIC_IF_EVAL [] 5 ["hk"] =
          get_loader DatasetId.SYNTHETIC_IF_EVAL [] 5 ["other"])) :=
  ⟨rfl, claim_c9 _ [] 5 ["hk"] ["other"] _ rfl⟩

/-- C10: `push` fails fast and atomically on an unknown competition — when the
constraints table has no entry for the competition id, it returns the
`ValueError` outcome and its effect trace contains neither a model upload to
the remote store nor a metadata commit to the chain. -/
theorem claim_c10 (env : PushEnv) (repo : String) (competition_id : CompetitionId)
    (hotkey : String) (update_repo_visibility : Bool) (fuel : Nat)
    (h : env.modelConstraintsById competition_id = none) :
    (push env repo competition_id hotkey update_repo_visibility fuel).2 =
      Except.error "Invalid competition_id" ∧
    PushEffect.uploadModel ∉ (push env repo competition_id hotkey update_repo_visibility fuel).1 ∧
    PushEffect.storeMetadata ∉ (push env repo competition_id hotkey update_repo_visibility fuel).1 := by
  simp [push, h]

/-- Witness for C10 with a concrete environment whose constraints table is
empty. -/
theorem claim_c10_witness :
    (PushEnv.mk (fun _ => none) (fun _ => none) "" (fun _ => false) (fun _ => none)).modelConstraintsById CompetitionId.INSTRUCT_8B = none ∧
    ((push (PushEnv.mk (fun _ => none) (fun _ => none) "" (fun _ => false) (fun _ => none))
        "namespace/name" CompetitionId.INSTRUCT_8B "hotkey" false 3).2 =
      Except.error "Invalid competition_id" ∧
    PushEffect.uploadModel ∉ (push (PushEnv.mk (fun _ => none) (fun _ => none) "" (fun _ => false) (fun _ => none))
        "namespace/name" CompetitionId.INSTRUCT_8B "hotkey" false 3).1 ∧
    PushEffect.storeMetadata ∉ (push (PushEnv.mk (fun _ => none) (fun _ => none) "" (fun _ => false) (fun _ => none))
        "namespace/name" CompetitionId.INSTRUCT_8B "hotkey" false 3).1) :=
  ⟨rfl, claim_c10 _ _ _ _ _ _ rfl⟩
